import Mathlib

/-!
Shallow embedding of the command-execution core of `termux-typescript-api`
(src/termux-api.ts): the single-shot executor `executeTermuxCommand`, the
streaming launcher `streamTermuxCommand`, and the capability facades
`share`, `setWallpaper` and `getLocation`, together with the pieces of the
JavaScript runtime they rely on (string trimming, truthiness, the
`\s` whitespace class and the `JSON.parse` builtin).
-/

namespace TermuxApi

/-- JavaScript strings are modelled as lists of characters. -/
abbrev Str := List Char

/-- Whitespace characters of JavaScript outside the contiguous
U+2000 to U+200A block: the class matched by the regex `\\s` and stripped
by `String.prototype.trim`. -/
def jsWsChars : List Char :=
  [' ', '\t', '\n', '\r', '\x0b', '\x0c', '\u00A0', '\u1680', '\u2028', '\u2029',
   '\u202F', '\u205F', '\u3000', '\uFEFF']

/-- Whitespace class of JavaScript: the characters matched by the regex
class `\\s` and stripped by `String.prototype.trim`. -/
def isJsWs (c : Char) : Bool :=
  jsWsChars.contains c || (decide ('\u2000' ≤ c) && decide (c ≤ '\u200A'))

/-- Model of `String.prototype.trim`: strip leading and trailing whitespace. -/
def jsTrim (l : Str) : Str :=
  ((l.dropWhile isJsWs).reverse.dropWhile isJsWs).reverse

/-- Model of `String.prototype.startsWith`. -/
def jsStartsWith (p l : Str) : Bool := p.isPrefixOf l

/-- Truthiness of an optional JavaScript string: `undefined` and the empty
string are falsy, every other string is truthy. -/
def truthyS : Option Str → Bool
  | some t => !t.isEmpty
  | none => false

/-- Truthiness of an optional JavaScript boolean. -/
def truthyB : Option Bool → Bool
  | some b => b
  | none => false

/-- Sentinel prefix checked on stdout by the executor (line 53 of
src/termux-api.ts). -/
def errorMark : Str := "ERROR:".toList

/-- Namespaced command string `termux-` + the space-join of all command
parts, exactly as interpolated into the executor's error messages. -/
def namespacedCmd (parts : List Str) : Str :=
  "termux-".toList ++ List.intercalate (" ".toList) parts

/-- JSON values as produced by the JavaScript `JSON.parse` builtin.
Object fields keep their textual order, as JavaScript objects do. -/
inductive Json : Type where
  | null : Json
  | bool : Bool → Json
  | num : Int → Json
  | str : Str → Json
  | arr : List Json → Json
  | obj : List (Str × Json) → Json

/-- Decode failure text for an unexpected character. -/
def jsonTokenMsg : Str := "Unexpected token in JSON".toList

/-- Decode failure text for truncated input. -/
def jsonEndMsg : Str := "Unexpected end of JSON input".toList

/-- Decode failure text when the recursion fuel runs out. -/
def jsonFuelMsg : Str := "JSON nesting exhausts the model fuel".toList

/-- Decode failure text for an unterminated string literal. -/
def jsonStrMsg : Str := "Unterminated string in JSON".toList

/-- Decode failure text for an escape outside the model. -/
def jsonEscMsg : Str := "Unsupported escape in JSON model".toList

/-- Decode failure text for a number outside the integer model. -/
def jsonNumMsg : Str := "Non-integer JSON numbers are outside the model".toList

/-- Decode failure text for a missing separator. -/
def jsonSepMsg : Str := "Expected separator in JSON".toList

/-- Decode failure text for a missing object key. -/
def jsonKeyMsg : Str := "Expected string key in JSON object".toList

/-- Decode failure text for trailing garbage. -/
def jsonTailMsg : Str := "Unexpected non-whitespace character after JSON".toList

/-- Whitespace of the JSON grammar itself. -/
def isJsonWs (c : Char) : Bool := (" \t\n\r".toList).contains c

/-- Skip JSON whitespace. -/
def skipWs (l : Str) : Str := l.dropWhile isJsonWs

/-- Decimal digit test, by code point. -/
def isDigitChar (c : Char) : Bool := 48 ≤ c.toNat && c.toNat ≤ 57

/-- Numeric value of a digit run. -/
def decimalVal (ds : Str) : Nat :=
  ds.foldl (fun acc d => 10 * acc + (d.toNat - 48)) 0

/-- Recognise one fixed keyword (`null`, `true`, `false`) and yield its
value. -/
def jkeyword (lit : Str) (v : Json) (l : Str) : Except Str (Json × Str) :=
  if lit.isPrefixOf l then pure (v, l.drop lit.length) else throw jsonTokenMsg

/-- Translation table for the escapes the model accepts; a `\\u` escape is
outside the model. -/
def jescape (e : Char) : Option Char :=
  [('n', '\n'), ('t', '\t'), ('r', '\r'), ('"', '"'), ('\\', '\\'), ('/', '/'),
   ('b', '\x08'), ('f', '\x0c')].lookup e

/-- Read the body of a JSON string literal, after the opening quote. -/
def jstringBody : Str → Except Str (Str × Str)
  | [] => throw jsonStrMsg
  | '"' :: rest => pure ([], rest)
  | '\\' :: rest =>
    match rest with
    | [] => throw jsonStrMsg
    | e :: rest2 =>
      match jescape e with
      | none => throw jsonEscMsg
      | some c => do
        let p ← jstringBody rest2
        pure (c :: p.1, p.2)
  | c :: rest => do
    let p ← jstringBody rest
    pure (c :: p.1, p.2)

/-- Read a JSON number. The model is restricted to integers: a fraction or
exponent part is reported as a decode failure. -/
def jnumber (l : Str) : Except Str (Json × Str) :=
  let body := if l.head? = some '-' then l.tail else l
  let ds := body.takeWhile isDigitChar
  let rest := body.dropWhile isDigitChar
  if ds = [] then throw jsonTokenMsg
  else if rest.head? = some '.' || rest.head? = some 'e' || rest.head? = some 'E' then
    throw jsonNumMsg
  else
    let mag : Int := Int.ofNat (decimalVal ds)
    pure (.num (if l.head? = some '-' then -mag else mag), rest)

mutual

/-- Read one JSON value; the fuel argument bounds the recursion depth. -/
def jvalue : Nat → Str → Except Str (Json × Str)
  | 0, _ => throw jsonFuelMsg
  | fuel + 1, l =>
    match skipWs l with
    | [] => throw jsonEndMsg
    | c :: r =>
      if c == '"' then do
        let p ← jstringBody r
        pure (.str p.1, p.2)
      else if c == '[' then
        match skipWs r with
        | ']' :: r2 => pure (.arr [], r2)
        | _ => do
          let p ← jitems fuel r
          pure (.arr p.1, p.2)
      else if c == '{' then
        match skipWs r with
        | '}' :: r2 => pure (.obj [], r2)
        | _ => do
          let p ← jfields fuel r
          pure (.obj p.1, p.2)
      else if c == 'n' then jkeyword ("null".toList) .null (c :: r)
      else if c == 't' then jkeyword ("true".toList) (.bool true) (c :: r)
      else if c == 'f' then jkeyword ("false".toList) (.bool false) (c :: r)
      else if c == '-' || isDigitChar c then jnumber (c :: r)
      else throw jsonTokenMsg

/-- Read the comma-separated items of a non-empty JSON array, up to the
closing bracket. -/
def jitems : Nat → Str → Except Str (List Json × Str)
  | 0, _ => throw jsonFuelMsg
  | fuel + 1, l => do
    let p ← jvalue fuel l
    match skipWs p.2 with
    | ',' :: r2 => do
      let q ← jitems fuel r2
      pure (p.1 :: q.1, q.2)
    | ']' :: r2 => pure ([p.1], r2)
    | _ => throw jsonSepMsg

/-- Read the comma-separated fields of a non-empty JSON object, up to the
closing brace. -/
def jfields : Nat → Str → Except Str (List (Str × Json) × Str)
  | 0, _ => throw jsonFuelMsg
  | fuel + 1, l =>
    match skipWs l with
    | '"' :: r => do
      let k ← jstringBody r
      match skipWs k.2 with
      | ':' :: r2 => do
        let v ← jvalue fuel r2
        match skipWs v.2 with
        | ',' :: r4 => do
          let q ← jfields fuel r4
          pure ((k.1, v.1) :: q.1, q.2)
        | '}' :: r4 => pure ([(k.1, v.1)], r4)
        | _ => throw jsonSepMsg
      | _ => throw jsonSepMsg
    | _ => throw jsonKeyMsg

end

/-- Model of the JavaScript `JSON.parse` builtin (external to the
repository): read one value, then require only whitespace to remain. -/
def jsonParse (l : Str) : Except Str Json := do
  let p ← jvalue (2 * l.length + 2) l
  if skipWs p.2 = [] then pure p.1 else throw jsonTailMsg

/-- Classified failures of a one-shot invocation, carrying exactly the
data interpolated into the corresponding `Error` message of
src/termux-api.ts. -/
inductive ExecErr where
  | commandError (stderrText stdoutText cmd : Str)
  | nonZeroExit (cmd : Str) (code : Int)
  | outputError (text : Str)
  | decodeError (rawText failMsg stderrText : Str)
  | launchError (cmd failMsg : Str)

/-- Settlement of a one-shot invocation: the promise either resolves with
a decoded JSON value or the trimmed text, or rejects with a classified
error. -/
inductive ExecResult where
  | resolveJson (v : Json)
  | resolveText (t : Str)
  | reject (e : ExecErr)

/-- Whether a settlement is a resolution (success) rather than a
rejection. -/
def isResolve : ExecResult → Bool
  | .resolveJson _ => true
  | .resolveText _ => true
  | .reject _ => false

/-- Resolution performed by the `close` handler of `executeTermuxCommand`
(src/termux-api.ts lines 36-71), parametric in the `JSON.parse` builtin.
The branches mirror the source: non-empty stderr, then non-zero exit with
empty trimmed stdout, then the untrimmed `ERROR:` prefix check, then the
JSON decode attempt, else plain text. -/
def classify (parse : Str → Except Str Json) (commandParts : List Str)
    (code : Int) (stdoutData stderrData : Str) (isJsonOutput : Bool) : ExecResult :=
  if stderrData ≠ [] then
    .reject (.commandError (jsTrim stderrData) (jsTrim stdoutData) (namespacedCmd commandParts))
  else if code ≠ 0 ∧ jsTrim stdoutData = [] then
    .reject (.nonZeroExit (namespacedCmd commandParts) code)
  else if jsStartsWith errorMark stdoutData then
    .reject (.outputError (jsTrim stdoutData))
  else if isJsonOutput ∧ jsTrim stdoutData ≠ [] then
    match parse (jsTrim stdoutData) with
    | .ok v => .resolveJson v
    | .error m => .reject (.decodeError (jsTrim stdoutData) m (jsTrim stderrData))
  else
    .resolveText (jsTrim stdoutData)

/-- Actions performed on the spawned process's stdin. -/
inductive StdinAct where
  | write (t : Str)
  | close
deriving DecidableEq

/-- Whether a stdin action closes the channel. -/
def isClose : StdinAct → Bool
  | .close => true
  | _ => false

/-- Stdin handling of `executeTermuxCommand` (src/termux-api.ts lines
83-88). The source guard is `if (inputText)`, a JavaScript truthiness
test, so an empty-string payload takes the else branch and is closed
without a write. -/
def stdinActions : Option Str → List StdinAct
  | some t => if t ≠ [] then [.write t, .close] else [.close]
  | none => [.close]

/-- Spawn target of one invocation: executable name and argument vector
(src/termux-api.ts lines 19-21).  The executable is the namespace prefix
`termux-` prepended to the first command part; on an empty part list the
JavaScript index yields `undefined`, interpolating that word. -/
def spawnOf : List Str → Str × List Str
  | [] => ("termux-undefined".toList, [])
  | c :: rest => ("termux-".toList ++ c, rest)

/-- Observable behaviour of one call to the single-shot executor: the
processes it spawns, the stdin actions it performs, how it settles on the
process's `close` event, and how it settles on a spawn `error` event. -/
structure InvocationModel where
  spawns : List (Str × List Str)
  stdin : List StdinAct
  settle : Int → Str → Str → ExecResult
  onSpawnError : Str → ExecResult

/-- Model of `executeTermuxCommand` (src/termux-api.ts lines 12-90),
parametric in the `JSON.parse` builtin. One call spawns exactly one
process and registers the close and error settlements. -/
def executeTermuxCommand (parse : Str → Except Str Json) (commandParts : List Str)
    (inputText : Option Str) (isJsonOutput : Bool) : InvocationModel where
  spawns := [spawnOf commandParts]
  stdin := stdinActions inputText
  settle := fun code stdoutData stderrData =>
    classify parse commandParts code stdoutData stderrData isJsonOutput
  onSpawnError := fun m =>
    .reject (.launchError (namespacedCmd commandParts) m)

/-- Model of `streamTermuxCommand` (src/termux-api.ts lines 97-104): spawn
one process identically to the executor and hand it back. -/
def streamTermuxCommand (commandParts : List Str) : Str × List Str :=
  spawnOf commandParts

/-- Model of `String.prototype.replaceAll(/\s+/g, "-")`: each maximal run
of whitespace characters becomes a single dash. The flag records whether
the previous character was inside a whitespace run. -/
def collapseWsAux (inWs : Bool) : Str → Str
  | [] => []
  | c :: rest =>
    if isJsWs c then
      if inWs then collapseWsAux true rest
      else '-' :: collapseWsAux true rest
    else c :: collapseWsAux false rest

/-- Title workaround of `share` (src/termux-api.ts line 1435): replace
every maximal whitespace run by a single dash. -/
def collapseWs (l : Str) : Str := collapseWsAux false l

/-- Parameters of `share` (src/termux-api.ts). -/
structure ShareParams where
  text : Option Str
  filePath : Option Str
  title : Option Str
  contentType : Option Str
  useDefaultReceiver : Option Bool
  action : Option Str

/-- Observable outcome of calling a facade function: a synchronously
rejected promise, a synchronously thrown exception, or a delegation to
the single-shot executor with the given command parts, stdin payload and
JSON flag. -/
inductive FacadeCall where
  | rejected (msg : Str)
  | thrown (msg : Str)
  | run (commandParts : List Str) (inputText : Option Str) (isJsonOutput : Bool)
deriving DecidableEq

/-- Processes spawned by a facade outcome: none unless the facade reached
the executor. -/
def facadeSpawns : FacadeCall → List (Str × List Str)
  | .run parts _ _ => [spawnOf parts]
  | _ => []

/-- Whether a facade outcome is a synchronous throw. -/
def isThrown : FacadeCall → Bool
  | .thrown _ => true
  | _ => false

/-- Whether a facade outcome is a rejected promise. -/
def isRejected : FacadeCall → Bool
  | .rejected _ => true
  | _ => false

/-- Flag tokens built by `share` before the file-or-text dispatch
(src/termux-api.ts lines 1433-1438). Each guard is a JavaScript
truthiness test on the optional field. -/
def shareArgs (p : ShareParams) : List Str :=
  (if truthyS p.title then ["-t".toList, collapseWs (p.title.getD [])] else []) ++
  (if truthyS p.contentType then ["-c".toList, p.contentType.getD []] else []) ++
  (if truthyB p.useDefaultReceiver then ["-d".toList] else []) ++
  (if truthyS p.action then ["-a".toList, p.action.getD []] else [])

/-- Model of `share` (src/termux-api.ts lines 1432-1451): a truthy file
path is appended as a positional token, else truthy text becomes the
stdin payload, else the call rejects before any spawn. -/
def share (p : ShareParams) : FacadeCall :=
  if truthyS p.filePath then
    .run ("share".toList :: (shareArgs p ++ [p.filePath.getD []])) none false
  else if truthyS p.text then
    .run ("share".toList :: shareArgs p) p.text false
  else
    .rejected ("Either text or filePath must be provided for sharing.".toList)

/-- Parameters of `setWallpaper` (src/termux-api.ts). -/
structure WallpaperParams where
  filePath : Option Str
  url : Option Str
  setForLockscreen : Option Bool

/-- Model of `setWallpaper` (src/termux-api.ts lines 1999-2012): a truthy
file path or url selects the flag, else the call rejects before any
spawn; the lockscreen flag is appended afterwards. -/
def setWallpaper (p : WallpaperParams) : FacadeCall :=
  if truthyS p.filePath then
    .run ("wallpaper".toList ::
      (["-f".toList, p.filePath.getD []] ++
        (if truthyB p.setForLockscreen then ["-l".toList] else []))) none false
  else if truthyS p.url then
    .run ("wallpaper".toList ::
      (["-u".toList, p.url.getD []] ++
        (if truthyB p.setForLockscreen then ["-l".toList] else []))) none false
  else
    .rejected ("Either filePath or url must be provided for wallpaper.".toList)

/-- Parameters of `getLocation` (src/termux-api.ts). -/
structure GetLocationParams where
  provider : Option Str
  requestType : Option Str

/-- The optional chain `params?.provider`. -/
def provOpt (p : Option GetLocationParams) : Option Str :=
  p.bind (fun q => q.provider)

/-- The optional chain `params?.requestType`. -/
def rtOpt (p : Option GetLocationParams) : Option Str :=
  p.bind (fun q => q.requestType)

/-- The request-type literal that routes to the streaming launcher. -/
def updatesStr : Str := "updates".toList

/-- Argument tokens built by `getLocation` (src/termux-api.ts lines
931-935): a truthy provider, then the request type when truthy and not
`updates`, defaulting to `once` when the request type is falsy. -/
def getLocationArgs (p : Option GetLocationParams) : List Str :=
  (if truthyS (provOpt p) then ["-p".toList, (provOpt p).getD []] else []) ++
  (if truthyS (rtOpt p) ∧ rtOpt p ≠ some updatesStr then ["-r".toList, (rtOpt p).getD []]
   else if ¬ truthyS (rtOpt p) then ["-r".toList, "once".toList]
   else [])

/-- Message of the synchronous throw in `getLocation`. -/
def locationUpdatesMsg : Str :=
  "For location updates, please use the streamLocationUpdates() function.".toList

/-- Model of `getLocation` (src/termux-api.ts lines 928-944): a request
type strictly equal to `updates` throws a synchronous exception before
the executor is reached; every other call delegates to the executor with
JSON output expected. -/
def getLocation (p : Option GetLocationParams) : FacadeCall :=
  if rtOpt p = some updatesStr then .thrown locationUpdatesMsg
  else .run ("location".toList :: getLocationArgs p) none true

/-! Helper lemmas about the JavaScript string model. -/

/-- Dropping while a predicate holds leaves a list unchanged when no element
satisfies the predicate. -/
theorem dropWhile_eq_self_of_all {α : Type} (p : α → Bool) (l : List α)
    (h : ∀ a ∈ l, p a = false) : l.dropWhile p = l := by
  cases l with
  | nil => rfl
  | cons a t => simp [List.dropWhile_cons, h a (by simp)]

/-- A non-empty prefix made of non-whitespace characters survives trimming. -/
theorem prefix_jsTrim (p l : Str) (hne : p ≠ [])
    (hws : ∀ c ∈ p, isJsWs c = false) (h : p <+: l) : p <+: jsTrim l := by
  obtain ⟨t, rfl⟩ := h
  obtain ⟨c, p', rfl⟩ := List.exists_cons_of_ne_nil hne
  unfold jsTrim
  have hc : isJsWs c = false := hws c (by simp)
  rw [List.cons_append, List.dropWhile_cons]
  simp only [hc, Bool.false_eq_true, if_false]
  have hrev : (c :: (p' ++ t)).reverse = t.reverse ++ (c :: p').reverse := by
    simp [List.reverse_cons, List.reverse_append, List.append_assoc]
  rw [hrev, List.dropWhile_append]
  split
  · have hall : ((c :: p').reverse).dropWhile isJsWs = (c :: p').reverse := by
      apply dropWhile_eq_self_of_all
      intro a ha
      exact hws a (by simpa [or_comm] using ha)
    rw [hall, List.reverse_reverse]
  · rw [List.reverse_append, List.reverse_reverse]
    exact List.prefix_append _ _

/-- The ERROR: sentinel on the raw stdout implies the sentinel on the
trimmed stdout. -/
theorem startsWith_jsTrim_of_startsWith (l : Str)
    (h : jsStartsWith errorMark l = true) : jsStartsWith errorMark (jsTrim l) = true := by
  rw [jsStartsWith, List.isPrefixOf_iff_prefix] at h ⊢
  exact prefix_jsTrim _ _ (by decide) (by decide) h

/-- Contrapositive transfer: if the trimmed stdout does not begin with the
sentinel then neither does the raw stdout. -/
theorem startsWith_of_trim_false (l : Str)
    (h : jsStartsWith errorMark (jsTrim l) = false) : jsStartsWith errorMark l = false := by
  cases hb : jsStartsWith errorMark l with
  | false => rfl
  | true =>
    have h2 := startsWith_jsTrim_of_startsWith l hb
    rw [h] at h2
    exact Bool.noConfusion h2

/-- The whitespace-collapse helper never emits a whitespace character. -/
theorem collapseWsAux_all_not_ws (l : Str) :
    ∀ b, (collapseWsAux b l).all (fun c => !isJsWs c) = true := by
  induction l with
  | nil => intro b; rfl
  | cons c rest ih =>
    intro b
    by_cases hc : isJsWs c = true
    · have hd : isJsWs '-' = false := rfl
      cases b <;> simp [collapseWsAux, hc, ih, hd]
    · have hc2 : isJsWs c = false := by revert hc; cases isJsWs c <;> simp
      simp [collapseWsAux, hc2, ih]

/-- The collapsed title contains no whitespace character. -/
theorem collapseWs_all_not_ws (l : Str) :
    (collapseWs l).all (fun c => !isJsWs c) = true :=
  collapseWsAux_all_not_ws l false

/-! Claims. -/

/-- C1: for every one-shot invocation, non-empty stderr text makes the close
resolution a Command-Error embedding the (trimmed) stderr text, the (trimmed)
accumulated stdout text and the namespaced command with its arguments,
regardless of exit code, of stdout well-formedness and of the JSON flag, and
taking precedence over every other outcome. -/
theorem c1_stderr_precedence (parse : Str → Except Str Json) (parts : List Str)
    (code : Int) (stdoutData stderrData : Str) (isJsonOutput : Bool)
    (h : stderrData ≠ []) :
    classify parse parts code stdoutData stderrData isJsonOutput =
      .reject (.commandError (jsTrim stderrData) (jsTrim stdoutData) (namespacedCmd parts)) := by
  unfold classify
  simp [h]

/-- Witness for C1: exit code 0 with well-formed JSON stdout still rejects as
Command-Error when stderr is non-empty. -/
theorem c1_stderr_precedence_witness :
    classify jsonParse ["battery-status".toList] 0
      ("\x7b\"present\":true\x7d".toList) ("oops\n".toList) true =
      .reject (.commandError ("oops".toList) ("\x7b\"present\":true\x7d".toList)
        ("termux-battery-status".toList)) :=
  (c1_stderr_precedence jsonParse ["battery-status".toList] 0
    ("\x7b\"present\":true\x7d".toList) ("oops\n".toList) true (by decide)).trans rfl

/-- C2 counterexample: stdout whose trimmed form begins with ERROR: but whose
raw form has leading whitespace resolves to success, not Output-Error,
because the source checks the untrimmed stdout. -/
theorem c2_counterexample :
    jsStartsWith errorMark (jsTrim (" ERROR: permission denied".toList)) = true ∧
    classify jsonParse ["volume".toList] 0 (" ERROR: permission denied".toList) [] false =
      .resolveText ("ERROR: permission denied".toList) ∧
    isResolve (classify jsonParse ["volume".toList] 0
      (" ERROR: permission denied".toList) [] false) = true :=
  ⟨rfl, rfl, rfl⟩

/-- C2 (amended): with empty stderr and outside the Non-Zero-Exit case, the
sentinel check is on the raw untrimmed stdout: when the raw stdout begins
with ERROR:, the invocation rejects with an Output-Error carrying the
trimmed stdout text. -/
theorem c2_output_error_untrimmed (parse : Str → Except Str Json) (parts : List Str)
    (code : Int) (stdoutData : Str) (isJsonOutput : Bool)
    (hexit : ¬ (code ≠ 0 ∧ jsTrim stdoutData = []))
    (hmark : jsStartsWith errorMark stdoutData = true) :
    classify parse parts code stdoutData [] isJsonOutput =
      .reject (.outputError (jsTrim stdoutData)) := by
  unfold classify
  simp [hexit, hmark]

/-- Witness for C2 (amended): the spec scenario with stdout beginning
exactly with the sentinel. -/
theorem c2_output_error_untrimmed_witness :
    classify jsonParse ["volume".toList] 0 ("ERROR: permission denied".toList) [] false =
      .reject (.outputError ("ERROR: permission denied".toList)) :=
  (c2_output_error_untrimmed jsonParse ["volume".toList] 0
    ("ERROR: permission denied".toList) false (by decide) (by decide)).trans rfl

/-- C3 counterexample: exit code 1 with non-empty stdout and empty stderr is
not treated as success when the stdout begins with the ERROR: sentinel; the
invocation rejects as Output-Error. -/
theorem c3_counterexample :
    classify jsonParse ["volume".toList] 1 ("ERROR: fail".toList) [] false =
      .reject (.outputError ("ERROR: fail".toList)) ∧
    isResolve (classify jsonParse ["volume".toList] 1 ("ERROR: fail".toList) [] false) = false :=
  ⟨rfl, rfl⟩

/-- C3 (amended): Non-Zero-Exit is rejected exactly when stderr is empty,
the exit code is non-zero and the trimmed stdout is empty; and with empty
stderr and non-empty trimmed stdout the exit code has no influence at all on
the resolution (it is ignored, rather than forcing success). -/
theorem c3_exit_code_policy (parse : Str → Except Str Json) (parts : List Str)
    (code : Int) (stdoutData stderrData : Str) (isJsonOutput : Bool) :
    (classify parse parts code stdoutData stderrData isJsonOutput =
        .reject (.nonZeroExit (namespacedCmd parts) code) ↔
      stderrData = [] ∧ code ≠ 0 ∧ jsTrim stdoutData = []) ∧
    (stderrData = [] → jsTrim stdoutData ≠ [] → ∀ code2 : Int,
      classify parse parts code stdoutData stderrData isJsonOutput =
        classify parse parts code2 stdoutData stderrData isJsonOutput) := by
  constructor
  · constructor
    · intro h
      unfold classify at h
      by_cases h1 : stderrData ≠ []
      · rw [if_pos h1] at h
        exact absurd h (by simp)
      · rw [if_neg h1] at h
        push_neg at h1
        by_cases h2 : code ≠ 0 ∧ jsTrim stdoutData = []
        · exact ⟨h1, h2⟩
        · rw [if_neg h2] at h
          exfalso
          split at h
          · simp at h
          · split at h
            · split at h <;> simp at h
            · simp at h
    · rintro ⟨h1, h2⟩
      unfold classify
      rw [if_neg (by simp [h1]), if_pos h2]
  · intro h1 htrim code2
    unfold classify
    simp [h1, htrim]

/-- Witness for C3 (amended): exit 1 with empty stdout rejects as
Non-Zero-Exit carrying code 1, while with non-empty stdout the result of
exit 1 equals the result of exit 5. -/
theorem c3_exit_code_policy_witness :
    classify jsonParse ["volume".toList] 1 [] [] false =
      .reject (.nonZeroExit ("termux-volume".toList) 1) ∧
    classify jsonParse ["volume".toList] 1 ("15".toList) [] false =
      classify jsonParse ["volume".toList] 5 ("15".toList) [] false := by
  constructor
  · exact ((c3_exit_code_policy jsonParse ["volume".toList] 1 [] [] false).1.mpr
      ⟨rfl, by decide, rfl⟩).trans rfl
  · exact (c3_exit_code_policy jsonParse ["volume".toList] 1 ("15".toList) [] false).2
      rfl (by decide) 5

/-- C4 counterexample: getLocation called with requestType updates throws a
synchronous exception instead of surfacing the failure as a rejected
outcome. -/
theorem c4_counterexample :
    getLocation (some ⟨none, some ("updates".toList)⟩) = .thrown locationUpdatesMsg ∧
    isRejected (getLocation (some ⟨none, some ("updates".toList)⟩)) = false ∧
    isThrown (getLocation (some ⟨none, some ("updates".toList)⟩)) = true :=
  ⟨rfl, rfl, rfl⟩

/-- C4 (amended): getLocation throws synchronously exactly when the request
type is the literal updates; every other call reaches the single-shot
executor (with JSON output expected), whose failures are all rejections. -/
theorem c4_throw_iff_updates (p : Option GetLocationParams) :
    (isThrown (getLocation p) = true ↔ rtOpt p = some updatesStr) ∧
    (rtOpt p ≠ some updatesStr →
      getLocation p = .run ("location".toList :: getLocationArgs p) none true) := by
  unfold getLocation
  by_cases h : rtOpt p = some updatesStr <;> simp [h, isThrown]

/-- Witness for C4 (amended): a parameterless call does not throw and
delegates to the executor with the default once request. -/
theorem c4_throw_iff_updates_witness :
    getLocation none = .run ["location".toList, "-r".toList, "once".toList] none true ∧
    isThrown (getLocation none) = false := by
  refine ⟨((c4_throw_iff_updates none).2 (by decide)).trans rfl, ?_⟩
  have h := (c4_throw_iff_updates none).1
  cases hb : isThrown (getLocation none) with
  | false => rfl
  | true => exact absurd (h.mp hb) (by decide)

/-- C5: under empty stderr, outside the Non-Zero-Exit case and with the
trimmed stdout not beginning with ERROR:, a structured-output request with
non-empty trimmed stdout resolves to exactly the decoded value of the
trimmed stdout, and every other case (structured request with empty trimmed
stdout, or no structured request) resolves to the trimmed raw text. -/
theorem c5_success_value (parse : Str → Except Str Json) (parts : List Str)
    (code : Int) (stdoutData : Str)
    (hexit : ¬ (code ≠ 0 ∧ jsTrim stdoutData = []))
    (hmark : jsStartsWith errorMark (jsTrim stdoutData) = false) :
    (∀ v, jsTrim stdoutData ≠ [] → parse (jsTrim stdoutData) = .ok v →
      classify parse parts code stdoutData [] true = .resolveJson v) ∧
    (jsTrim stdoutData = [] →
      classify parse parts code stdoutData [] true = .resolveText (jsTrim stdoutData)) ∧
    (classify parse parts code stdoutData [] false = .resolveText (jsTrim stdoutData)) := by
  have hmark0 : jsStartsWith errorMark stdoutData = false := startsWith_of_trim_false _ hmark
  refine ⟨?_, ?_, ?_⟩
  · intro v hne hok
    unfold classify
    simp [hexit, hmark0, hne, hok]
  · intro hempty
    have hcode : code = 0 := by
      by_contra hc
      exact hexit ⟨hc, hempty⟩
    unfold classify
    simp [hcode, hmark0, hempty]
  · unfold classify
    simp [hexit, hmark0]

/-- Witness for C5: the battery scenario decodes to the expected object, and
the toast scenario with empty stdout resolves to the empty string. -/
theorem c5_success_value_witness :
    classify jsonParse ["battery-status".toList] 0
      ("\x7b\"present\":true,\"percentage\":87\x7d".toList) [] true =
      .resolveJson (.obj [("present".toList, .bool true), ("percentage".toList, .num 87)]) ∧
    classify jsonParse ["toast".toList] 0 [] [] false = .resolveText [] := by
  constructor
  · exact ((c5_success_value jsonParse ["battery-status".toList] 0
      ("\x7b\"present\":true,\"percentage\":87\x7d".toList) (by decide) (by decide)).1
      (.obj [("present".toList, .bool true), ("percentage".toList, .num 87)])
      (by decide) rfl).trans rfl
  · exact ((c5_success_value jsonParse ["toast".toList] 0 [] (by decide) (by decide)).2.2).trans rfl

/-- C6: with structured output requested, empty stderr, outside the
Non-Zero-Exit case, a non-empty trimmed stdout that does not begin with
ERROR: and fails to decode rejects as Decode-Error embedding the trimmed raw
stdout text, the decode failure message and the (empty) stderr text. -/
theorem c6_decode_error (parse : Str → Except Str Json) (parts : List Str)
    (code : Int) (stdoutData m : Str)
    (hexit : ¬ (code ≠ 0 ∧ jsTrim stdoutData = []))
    (hne : jsTrim stdoutData ≠ [])
    (hmark : jsStartsWith errorMark (jsTrim stdoutData) = false)
    (hfail : parse (jsTrim stdoutData) = .error m) :
    classify parse parts code stdoutData [] true =
      .reject (.decodeError (jsTrim stdoutData) m []) := by
  have hmark0 : jsStartsWith errorMark stdoutData = false := startsWith_of_trim_false _ hmark
  have h0 : jsTrim ([] : Str) = [] := rfl
  unfold classify
  simp [hexit, hmark0, hne, hfail, h0]

/-- Witness for C6: the spec scenario with stdout not json. -/
theorem c6_decode_error_witness :
    classify jsonParse ["battery-status".toList] 0 ("not json".toList) [] true =
      .reject (.decodeError ("not json".toList) ("Unexpected token in JSON".toList) []) :=
  (c6_decode_error jsonParse ["battery-status".toList] 0 ("not json".toList)
    ("Unexpected token in JSON".toList) (by decide) (by decide) (by decide) rfl).trans rfl

/-- C7 counterexample: a supplied empty-string payload is falsy in the
source guard `if (inputText)`, so the channel is closed with no write,
contradicting the claim that a supplied payload is always written before
closing. -/
theorem c7_counterexample :
    (executeTermuxCommand jsonParse ["toast".toList] (some []) false).stdin = [.close] ∧
    ¬ (executeTermuxCommand jsonParse ["toast".toList] (some []) false).stdin
        = [.write [], .close] :=
  ⟨rfl, by decide⟩

/-- C7 (amended): the stdin channel is closed exactly once in every
invocation; a supplied non-empty payload is written and then the channel is
closed; no payload, or a supplied empty payload, closes the channel
immediately with no write. -/
theorem c7_stdin_close (parse : Str → Except Str Json) (parts : List Str)
    (inputText : Option Str) (isJsonOutput : Bool) :
    ((executeTermuxCommand parse parts inputText isJsonOutput).stdin.countP isClose = 1) ∧
    (∀ t, inputText = some t → t ≠ [] →
      (executeTermuxCommand parse parts inputText isJsonOutput).stdin = [.write t, .close]) ∧
    ((inputText = none ∨ inputText = some []) →
      (executeTermuxCommand parse parts inputText isJsonOutput).stdin = [.close]) := by
  have hs : (executeTermuxCommand parse parts inputText isJsonOutput).stdin
      = stdinActions inputText := rfl
  rw [hs]
  rcases inputText with _ | t
  · refine ⟨rfl, ?_, fun _ => rfl⟩
    intro t ht
    exact absurd ht (by simp)
  · by_cases ht : t = []
    · subst ht
      refine ⟨rfl, ?_, fun _ => rfl⟩
      intro t2 ht2 hne
      rw [Option.some_inj] at ht2
      exact absurd ht2.symm hne
    · refine ⟨?_, ?_, ?_⟩
      · simp [stdinActions, ht, List.countP_cons, List.countP_nil, isClose]
      · intro t2 ht2 hne
        rw [Option.some_inj] at ht2
        subst ht2
        simp [stdinActions, ht]
      · rintro (h2 | h2)
        · exact absurd h2 (by simp)
        · rw [Option.some_inj] at h2
          exact absurd h2 ht

/-- Witness for C7 (amended): a non-empty payload is written then closed,
the close count is one, and the payloadless invocation closes immediately. -/
theorem c7_stdin_close_witness :
    (executeTermuxCommand jsonParse ["toast".toList] (some ("hi".toList)) false).stdin
      = [.write ("hi".toList), .close] ∧
    (executeTermuxCommand jsonParse ["toast".toList]
      (some ("hi".toList)) false).stdin.countP isClose = 1 ∧
    (executeTermuxCommand jsonParse ["toast".toList] none false).stdin = [.close] := by
  refine ⟨?_, ?_, ?_⟩
  · exact (c7_stdin_close jsonParse ["toast".toList] (some ("hi".toList)) false).2.1
      ("hi".toList) rfl (by decide)
  · exact (c7_stdin_close jsonParse ["toast".toList] (some ("hi".toList)) false).1
  · exact (c7_stdin_close jsonParse ["toast".toList] none false).2.2 (Or.inl rfl)

/-- C8: one call to the single-shot executor spawns exactly one process,
whose executable is the namespace prefix termux- prepended to the first
command part and whose argument vector is exactly the remaining parts in
their original order; the streaming launcher spawns the identical process.
The spawn record is built afresh from the command parts on every call, so
nothing is cached or reused across calls. -/
theorem c8_spawn (parse : Str → Except Str Json) (c : Str) (rest : List Str)
    (inputText : Option Str) (isJsonOutput : Bool) :
    (executeTermuxCommand parse (c :: rest) inputText isJsonOutput).spawns
      = [("termux-".toList ++ c, rest)] ∧
    streamTermuxCommand (c :: rest) = ("termux-".toList ++ c, rest) ∧
    (executeTermuxCommand parse (c :: rest) inputText isJsonOutput).spawns.length = 1 :=
  ⟨rfl, rfl, rfl⟩

/-- C9: share with neither text nor file path, and setWallpaper with
neither file path nor url, reject before any spawn: the outcome is the
rejected validation message and the spawned process list is empty, for every
value of the remaining parameters. -/
theorem c9_validation (title ct : Option Str) (udr : Option Bool) (act : Option Str)
    (lock : Option Bool) :
    (share ⟨none, none, title, ct, udr, act⟩ =
        .rejected ("Either text or filePath must be provided for sharing.".toList) ∧
      facadeSpawns (share ⟨none, none, title, ct, udr, act⟩) = [] ∧
      isRejected (share ⟨none, none, title, ct, udr, act⟩) = true) ∧
    (setWallpaper ⟨none, none, lock⟩ =
        .rejected ("Either filePath or url must be provided for wallpaper.".toList) ∧
      facadeSpawns (setWallpaper ⟨none, none, lock⟩) = [] ∧
      isRejected (setWallpaper ⟨none, none, lock⟩) = true) :=
  ⟨⟨rfl, rfl, rfl⟩, ⟨rfl, rfl, rfl⟩⟩

/-- C10: when share is called with a truthy title, the argument token
following the -t flag is the title with every maximal whitespace run
collapsed to a single dash, and that token contains no whitespace
character. -/
theorem c10_title_collapse (p : ShareParams) (t : Str)
    (ht : p.title = some t) (hne : t ≠ []) :
    (shareArgs p).take 2 = ["-t".toList, collapseWs t] ∧
    (collapseWs t).all (fun c => !isJsWs c) = true := by
  refine ⟨?_, collapseWs_all_not_ws t⟩
  unfold shareArgs
  rw [ht]
  have htr : truthyS (some t) = true := by
    simp [truthyS, hne]
  simp [htr, List.take]

/-- Witness for C10: a title with spaces is passed as a single dashed
token. -/
theorem c10_title_collapse_witness :
    (shareArgs ⟨none, some ("/a.png".toList), some ("My cool title".toList),
        none, none, none⟩).take 2
      = ["-t".toList, collapseWs ("My cool title".toList)] ∧
    collapseWs ("My cool title".toList) = "My-cool-title".toList ∧
    (collapseWs ("My cool title".toList)).all (fun c => !isJsWs c) = true := by
  refine ⟨?_, rfl, ?_⟩
  · exact (c10_title_collapse ⟨none, some ("/a.png".toList),
      some ("My cool title".toList), none, none, none⟩
      ("My cool title".toList) rfl (by decide)).1
  · exact (c10_title_collapse ⟨none, some ("/a.png".toList),
      some ("My cool title".toList), none, none, none⟩
      ("My cool title".toList) rfl (by decide)).2

end TermuxApi
